import Mathlib

/-!
Shallow embedding of the decision-generation core of the `trigger` repository:
the `ModuleLevelTrigger` decision loop (plugins/ModuleLevelTrigger.cpp), the
`TimingTriggerCandidateMaker` candidate conversion
(plugins/TimingTriggerCandidateMaker.cpp), the `BufferManager` ordered window
buffer (src/trigger/BufferManager.hpp), and the livetime-accounting gate state.
Timestamps, counters and identifiers are modelled as `Nat`; machine truncations
that appear in the source (`& 0xff`, `static_cast<uint16_t>`) are made explicit.
-/

namespace Trigger

/-- `triggeralgs::TriggerCandidate::Type`: the decision logic only discriminates
Timing against every other kind, so the variant is Timing plus an arbitrary
numeric code for the others (the code is what `(int)tc.type` reads). -/
inductive TCType where
  | kTiming : TCType
  | kOther : Nat → TCType
deriving DecidableEq, Repr

/-- `triggeralgs::TriggerCandidate` (the fields the embedded code touches). -/
structure TriggerCandidate where
  time_start : Nat
  time_end : Nat
  time_candidate : Nat
  tctype : TCType
  detid : Nat
  algorithm : Nat
  version : Nat
deriving DecidableEq, Repr

/-- `dfmessages::GeoID`: a configured readout link `{system, region, element}`. -/
structure GeoID where
  system : Nat
  region : Nat
  element : Nat
deriving DecidableEq, Repr

/-- `dfmessages::ComponentRequest`: one readout request entry. -/
structure ComponentRequest where
  component : GeoID
  window_begin : Nat
  window_end : Nat
deriving DecidableEq, Repr

/-- `dfmessages::ReadoutType`: `create_decision` always sets `kLocalized`. -/
inductive ReadoutType where
  | kLocalized : ReadoutType
deriving DecidableEq, Repr

/-- `dfmessages::TriggerDecision` (the fields `create_decision` sets). -/
structure TriggerDecision where
  trigger_number : Nat
  run_number : Nat
  trigger_timestamp : Nat
  trigger_type : Nat
  readout_type : ReadoutType
  components : List ComponentRequest
deriving DecidableEq, Repr

/-- The configuration read by `ModuleLevelTrigger::do_configure` that
`create_decision` consults: the link list and the HSI pass-through flag. -/
structure MLTConfig where
  links : List GeoID
  hsi_passthrough : Bool
deriving DecidableEq, Repr

/-- `ModuleLevelTrigger::create_decision` (ModuleLevelTrigger.cpp:156-189):
builds a `TriggerDecision` from a candidate, given the member state it reads
(`m_last_trigger_number`, `m_run_number`, `m_links`, `m_hsi_passthrough`). -/
def create_decision (cfg : MLTConfig) (last_trigger_number run_number : Nat)
    (tc : TriggerCandidate) : TriggerDecision :=
  { trigger_number := last_trigger_number + 1
    run_number := run_number
    trigger_timestamp := tc.time_candidate
    readout_type := ReadoutType.kLocalized
    trigger_type :=
      if cfg.hsi_passthrough = true then
        match tc.tctype with
        | TCType.kTiming => tc.detid &&& 0xff
        | TCType.kOther c => c <<< 8
      else 1
    components := cfg.links.map (fun link =>
      { component := link
        window_begin := tc.time_start
        window_end := tc.time_end }) }

/-- The external input consumed by one iteration of
`ModuleLevelTrigger::send_trigger_decisions` (ModuleLevelTrigger.cpp:210-252):
either the 100 ms poll of the candidate source times out (carrying the value of
`m_running_flag` read at that instant), or a candidate arrives (carrying the
values of `m_paused` and `m_dfo_is_busy` read at that iteration — they are set
asynchronously by commands and the inhibit callback — and whether the
1 ms `td_sender->send` succeeds or throws). -/
inductive LoopEvent where
  | timeout (running : Bool) : LoopEvent
  | recv (tc : TriggerCandidate) (paused busy sendOk : Bool) : LoopEvent
deriving DecidableEq, Repr

/-- The mutable counters of `ModuleLevelTrigger` touched by the decision loop. -/
structure LoopState where
  last_trigger_number : Nat
  tc_received_count : Nat
  td_sent_count : Nat
  td_inhibited_count : Nat
  td_paused_count : Nat
  td_total_count : Nat
  td_queue_timeout_expired_err_count : Nat
deriving DecidableEq, Repr

/-- The reset at the top of `send_trigger_decisions`
(ModuleLevelTrigger.cpp:196-203): trigger number and all counters zero. -/
def initLoopState : LoopState :=
  { last_trigger_number := 0
    tc_received_count := 0
    td_sent_count := 0
    td_inhibited_count := 0
    td_paused_count := 0
    td_total_count := 0
    td_queue_timeout_expired_err_count := 0 }

/-- Observable outcome of one loop iteration: updated counters, the decisions
successfully handed to the sink (empty or a singleton), whether an
`ers::warning(TriggerInhibited...)` was surfaced, and whether the loop exited. -/
structure StepResult where
  state : LoopState
  sent : List TriggerDecision
  warned : Bool
  exited : Bool
deriving DecidableEq, Repr

/-- One iteration of the `while (true)` body of
`ModuleLevelTrigger::send_trigger_decisions` (ModuleLevelTrigger.cpp:210-252). -/
def processEvent (cfg : MLTConfig) (run_number : Nat) (s : LoopState) :
    LoopEvent → StepResult
  | LoopEvent.timeout running =>
    if running then { state := s, sent := [], warned := false, exited := false }
    else { state := s, sent := [], warned := false, exited := true }
  | LoopEvent.recv tc paused busy sendOk =>
    let s1 := { s with tc_received_count := s.tc_received_count + 1 }
    let r : StepResult :=
      if !paused && !busy then
        let decision := create_decision cfg s1.last_trigger_number run_number tc
        if sendOk then
          { state := { s1 with
              td_sent_count := s1.td_sent_count + 1
              last_trigger_number := s1.last_trigger_number + 1 }
            sent := [decision], warned := false, exited := false }
        else
          { state := { s1 with
              td_queue_timeout_expired_err_count :=
                s1.td_queue_timeout_expired_err_count + 1 }
            sent := [], warned := false, exited := false }
      else if paused then
        { state := { s1 with td_paused_count := s1.td_paused_count + 1 }
          sent := [], warned := false, exited := false }
      else
        { state := { s1 with td_inhibited_count := s1.td_inhibited_count + 1 }
          sent := [], warned := true, exited := false }
    { r with state := { r.state with td_total_count := r.state.td_total_count + 1 } }

/-- The decision loop run over a finite trace of poll events, collecting the
decisions successfully sent in order; the loop stops consuming events when an
iteration exits (timed-out poll with the running flag cleared). -/
def runLoop (cfg : MLTConfig) (run_number : Nat) :
    LoopState → List LoopEvent → LoopState × List TriggerDecision
  | s, [] => (s, [])
  | s, e :: es =>
    let r := processEvent cfg run_number s e
    if r.exited then (r.state, [])
    else
      let rest := runLoop cfg run_number r.state es
      (rest.1, r.sent ++ rest.2)

/-- `LivetimeCounter::State`: the three gating states
(`trigger/LivetimeCounter.hpp`, used at ModuleLevelTrigger.cpp:106/135/145/277). -/
inductive LTState where
  | kLive : LTState
  | kPaused : LTState
  | kDead : LTState
deriving DecidableEq, Repr

/-- Modelled from the spec: the `LivetimeCounter` class lives in
`src/trigger/LivetimeCounter.{hpp,cpp}`, which is not among the sources here;
per spec section 4.1 it keeps the current state, the timestamp of the last
transition (`entered_at`), and cumulative per-state durations excluding the
open interval. `start_time` records the creation instant (all accumulators are
zero at creation). Timestamps are clock ticks as `Nat`. -/
structure LivetimeCounter where
  current_state : LTState
  entered_at : Nat
  start_time : Nat
  acc_live : Nat
  acc_paused : Nat
  acc_dead : Nat
deriving DecidableEq, Repr

/-- Modelled from the spec: construction in an initial state at instant `now`
(ModuleLevelTrigger.cpp:106 constructs it in `kPaused` at run start). -/
def LivetimeCounter.init (s : LTState) (now : Nat) : LivetimeCounter :=
  { current_state := s
    entered_at := now
    start_time := now
    acc_live := 0
    acc_paused := 0
    acc_dead := 0 }

/-- The accumulator `accumulated[s]` of a livetime counter. -/
def LivetimeCounter.acc (c : LivetimeCounter) : LTState → Nat
  | LTState.kLive => c.acc_live
  | LTState.kPaused => c.acc_paused
  | LTState.kDead => c.acc_dead

/-- Modelled from the spec: `set_state` folds `now - entered_at` into the
accumulator of the outgoing state, sets the new state and resets
`entered_at`. -/
def LivetimeCounter.set_state (c : LivetimeCounter) (target : LTState)
    (now : Nat) : LivetimeCounter :=
  let delta := now - c.entered_at
  let c1 :=
    match c.current_state with
    | LTState.kLive => { c with acc_live := c.acc_live + delta }
    | LTState.kPaused => { c with acc_paused := c.acc_paused + delta }
    | LTState.kDead => { c with acc_dead := c.acc_dead + delta }
  { c1 with current_state := target, entered_at := now }

/-- Modelled from the spec: `get_time(s)` returns `accumulated[s]` plus the
open interval `now - entered_at` when `s` is the current state. -/
def LivetimeCounter.get_time (c : LivetimeCounter) (s : LTState)
    (now : Nat) : Nat :=
  c.acc s + if s = c.current_state then now - c.entered_at else 0

/-- A run of transitions applied in order, each a target state tagged with the
instant at which it happens. -/
def LivetimeCounter.applyTransitions (c : LivetimeCounter) :
    List (LTState × Nat) → LivetimeCounter
  | [] => c
  | t :: ts => (c.set_state t.1 t.2).applyTransitions ts

/-- The instant of the last transition of a run, `t` if the run is empty. -/
def lastTime : Nat → List (LTState × Nat) → Nat
  | t, [] => t
  | _, tr :: ts => lastTime tr.2 ts

/-- Well-formedness of a livetime counter: the creation instant precedes
`entered_at` and the accumulators sum to the closed time span. -/
def LivetimeCounter.Wf (c : LivetimeCounter) : Prop :=
  c.start_time ≤ c.entered_at ∧
  c.acc_live + c.acc_paused + c.acc_dead = c.entered_at - c.start_time

/-- `dfmessages::TriggerInhibit`: a busy/idle notification tagged with the run
it belongs to. -/
structure TriggerInhibit where
  busy : Bool
  run_number : Nat
deriving DecidableEq, Repr

/-- The slice of `ModuleLevelTrigger` state the inhibit callback touches: the
active run number, the `m_dfo_is_busy` flag, and the livetime counter. -/
structure InhibitView where
  run_number : Nat
  dfo_is_busy : Bool
  livetime : LivetimeCounter
deriving DecidableEq, Repr

/-- `ModuleLevelTrigger::dfo_busy_callback` (ModuleLevelTrigger.cpp:270-279):
when the notification's run number matches the active run, store its busy
value in `m_dfo_is_busy` and drive the livetime counter to `kDead` (the source
does this for busy=false as well); otherwise change nothing. `now` is the
instant at which the callback runs. -/
def dfo_busy_callback (s : InhibitView) (inhibit : TriggerInhibit)
    (now : Nat) : InhibitView :=
  if inhibit.run_number = s.run_number then
    { s with
        dfo_is_busy := inhibit.busy
        livetime := s.livetime.set_state LTState.kDead now }
  else s

/-- `trigger::TPSet` as buffered by `BufferManager`: the spec's
BufferedInterval `{start_time, end_time, payload}`; only `start_time` enters
the buffer's ordering (BufferManager.hpp:49-55). -/
structure TPSet where
  start_time : Nat
  end_time : Nat
  payload : Nat
deriving DecidableEq, Repr

/-- `std::set<TPSet, BufferManager::TPSetCmp>` (BufferManager.hpp:58) modelled
as a list sorted strictly by `start_time`. `TPSetCmp` compares solely
`start_time` (BufferManager.hpp:49-55), so two TPSets with equal `start_time`
are equivalent under the ordering and `std::set::insert` rejects the new one:
the walk inserts before the first strictly larger element and fails, leaving
the set unchanged, exactly when an equal-`start_time` element is met. -/
def setInsert : List TPSet → TPSet → List TPSet × Bool
  | [], tps => ([tps], true)
  | x :: xs, tps =>
    if tps.start_time < x.start_time then (tps :: x :: xs, true)
    else if x.start_time < tps.start_time then
      let r := setInsert xs tps
      (x :: r.1, r.2)
    else (x :: xs, false)

/-- Modelled from the spec: `BufferManager::add` is declared at
BufferManager.hpp:39 but its body lives in the missing BufferManager.cpp; per
spec section 4.2 it inserts into the ordered buffer, evicts the entries with
smallest `start_time` (the front of the sorted list) while the size exceeds
the capacity, and returns whether the insert succeeded. -/
def BufferManager.add (capacity : Nat) (buf : List TPSet) (tps : TPSet) :
    List TPSet × Bool :=
  let r := setInsert buf tps
  (r.1.drop (r.1.length - capacity), r.2)

/-- `triggeralgs::TimeStampedData` (the fields the conversion reads). -/
structure TimeStampedData where
  time_stamp : Nat
  signal_type : Nat
deriving DecidableEq, Repr

/-- `TimingTriggerCandidateMaker::TimeStampedDataToTriggerCandidate`
(TimingTriggerCandidateMaker.cpp:19-37): looks up the pre/post offsets
configured for the datum's signal type and builds a Timing candidate whose
`detid` receives `static_cast<uint16_t>(data.signal_type)` — an explicit
16-bit truncation. The offsets map is a function to `Option`; the `none` case
stands for the error surfaced for an unconfigured signal type. -/
def TimeStampedDataToTriggerCandidate (offsets : Nat → Option (Nat × Nat))
    (data : TimeStampedData) : Option TriggerCandidate :=
  match offsets data.signal_type with
  | none => none
  | some off =>
    some { time_start := data.time_stamp - off.1
           time_end := data.time_stamp + off.2
           time_candidate := data.time_stamp
           tctype := TCType.kTiming
           detid := data.signal_type % 2 ^ 16
           algorithm := 0
           version := 0 }

end Trigger

namespace Trigger

/-- C2: trigger-type derivation in `create_decision`: pass-through with a
Timing candidate takes the low 8 bits of `detid`; pass-through with any other
type takes the type code shifted left by 8 bits; pass-through disabled yields
the constant 1. -/
theorem create_decision_trigger_type (cfg : MLTConfig)
    (last run : Nat) (tc : TriggerCandidate) :
    (cfg.hsi_passthrough = true → tc.tctype = TCType.kTiming →
      (create_decision cfg last run tc).trigger_type = tc.detid % 256) ∧
    (cfg.hsi_passthrough = true → ∀ c, tc.tctype = TCType.kOther c →
      (create_decision cfg last run tc).trigger_type = c * 2 ^ 8) ∧
    (cfg.hsi_passthrough = false →
      (create_decision cfg last run tc).trigger_type = 1) := by
  refine ⟨?_, ?_, ?_⟩
  · intro hp ht
    simp only [create_decision, hp, ht, if_true]
    have : (0xff : Nat) = 2 ^ 8 - 1 := by norm_num
    rw [this, Nat.and_pow_two_sub_one_eq_mod]
  · intro hp c hc
    simp only [create_decision, hp, hc, if_true]
    exact Nat.shiftLeft_eq c 8
  · intro hp
    simp [create_decision, hp]

/-- Witness for C2 at a concrete candidate: pass-through with Timing and
`detid = 0x1234` yields `0x34 = 0x1234 % 256`. -/
theorem create_decision_trigger_type_witness :
    (create_decision ⟨[], true⟩ 0 7
      ⟨100, 200, 150, TCType.kTiming, 0x1234, 0, 0⟩).trigger_type = 0x1234 % 256 :=
  (create_decision_trigger_type ⟨[], true⟩ 0 7
    ⟨100, 200, 150, TCType.kTiming, 0x1234, 0, 0⟩).1 rfl rfl

/-- C9: a constructed decision timestamps from `time_candidate` and carries
exactly one readout request per configured link, in configured order, each
covering `[time_start, time_end]`. -/
theorem create_decision_readout (cfg : MLTConfig) (last run : Nat)
    (tc : TriggerCandidate) :
    (create_decision cfg last run tc).trigger_timestamp = tc.time_candidate ∧
    (create_decision cfg last run tc).components.map ComponentRequest.component
      = cfg.links ∧
    (create_decision cfg last run tc).components.length = cfg.links.length ∧
    ∀ r ∈ (create_decision cfg last run tc).components,
      r.window_begin = tc.time_start ∧ r.window_end = tc.time_end := by
  refine ⟨rfl, ?_, by simp [create_decision], ?_⟩
  · simp only [create_decision, List.map_map]
    exact List.map_id'' (fun _ => rfl) _
  · intro r hr
    simp only [create_decision, List.mem_map] at hr
    obtain ⟨link, _, hlink⟩ := hr
    exact ⟨by rw [← hlink], by rw [← hlink]⟩

/-- Witness for C9 at two configured links: the readout requests target the
links in configured order and the first one opens at the candidate's
`time_start`. -/
theorem create_decision_readout_witness :
    (create_decision ⟨[⟨1, 2, 3⟩, ⟨4, 5, 6⟩], false⟩ 0 7
        ⟨100, 200, 150, TCType.kTiming, 5, 0, 0⟩).components.map
      ComponentRequest.component = [⟨1, 2, 3⟩, ⟨4, 5, 6⟩] ∧
    ({ component := ⟨1, 2, 3⟩, window_begin := 100, window_end := 200 }
        : ComponentRequest).window_begin = 100 :=
  have h := create_decision_readout ⟨[⟨1, 2, 3⟩, ⟨4, 5, 6⟩], false⟩ 0 7
    ⟨100, 200, 150, TCType.kTiming, 5, 0, 0⟩
  ⟨h.2.1, (h.2.2.2 ⟨⟨1, 2, 3⟩, 100, 200⟩ (by decide)).1⟩

/-- Loop invariant: starting from any counter state `s`, the trigger numbers of
the decisions sent over any event trace run contiguously from
`s.last_trigger_number + 1`, and both `last_trigger_number` and `td_sent_count`
advance by exactly the number of successful sends. -/
theorem runLoop_sent_invariant (cfg : MLTConfig) (run : Nat) (es : List LoopEvent)
    (s : LoopState) :
    (runLoop cfg run s es).2.map TriggerDecision.trigger_number
      = List.range' (s.last_trigger_number + 1) (runLoop cfg run s es).2.length ∧
    (runLoop cfg run s es).1.last_trigger_number
      = s.last_trigger_number + (runLoop cfg run s es).2.length ∧
    (runLoop cfg run s es).1.td_sent_count
      = s.td_sent_count + (runLoop cfg run s es).2.length := by
  induction es generalizing s with
  | nil => simp [runLoop]
  | cons e es ih =>
    cases e with
    | timeout running =>
      cases running with
      | false => simp [runLoop, processEvent]
      | true =>
        obtain ⟨ih1, ih2, ih3⟩ := ih s
        simpa [runLoop, processEvent] using ⟨ih1, ih2, ih3⟩
    | recv tc paused busy sendOk =>
      obtain ⟨ih1, ih2, ih3⟩ :=
        ih (processEvent cfg run s (LoopEvent.recv tc paused busy sendOk)).state
      cases paused <;> cases busy <;> cases sendOk <;>
        simp_all [runLoop, processEvent, create_decision, List.range'_succ,
          Nat.add_assoc, Nat.add_comm 1]

/-- C1: from the run-start reset (`last_trigger_number = 0`, counters zero),
the trigger numbers of the successfully sent decisions form exactly the
contiguous strictly increasing sequence `1, 2, ..., n` (no duplicates), and
`last_trigger_number` ends equal to the number of successful sends, as does
`td_sent_count`. -/
theorem trigger_numbers_contiguous (cfg : MLTConfig) (run : Nat)
    (es : List LoopEvent) :
    (runLoop cfg run initLoopState es).2.map TriggerDecision.trigger_number
      = List.range' 1 (runLoop cfg run initLoopState es).2.length ∧
    (runLoop cfg run initLoopState es).1.last_trigger_number
      = (runLoop cfg run initLoopState es).2.length ∧
    (runLoop cfg run initLoopState es).1.td_sent_count
      = (runLoop cfg run initLoopState es).2.length := by
  have h := runLoop_sent_invariant cfg run es initLoopState
  simpa [initLoopState] using h

/-- C4: on a send failure for an admitted candidate (gate open, send throws):
`last_trigger_number` and `td_sent_count` are unchanged, the failure counter
`td_queue_timeout_expired_err_count` increments, nothing is delivered, no
warning and no exit are produced, and the loop simply continues with the
remaining events — the decision is dropped with no retry. -/
theorem send_failure_drops (cfg : MLTConfig) (run : Nat) (s : LoopState)
    (tc : TriggerCandidate) (es : List LoopEvent) :
    (processEvent cfg run s
        (LoopEvent.recv tc false false false)).state.last_trigger_number
      = s.last_trigger_number ∧
    (processEvent cfg run s
        (LoopEvent.recv tc false false false)).state.td_sent_count
      = s.td_sent_count ∧
    (processEvent cfg run s
        (LoopEvent.recv tc false false false)).state.td_queue_timeout_expired_err_count
      = s.td_queue_timeout_expired_err_count + 1 ∧
    (processEvent cfg run s (LoopEvent.recv tc false false false)).sent = [] ∧
    (processEvent cfg run s (LoopEvent.recv tc false false false)).exited
      = false ∧
    runLoop cfg run s (LoopEvent.recv tc false false false :: es)
      = runLoop cfg run
          (processEvent cfg run s (LoopEvent.recv tc false false false)).state
          es := by
  refine ⟨rfl, rfl, rfl, rfl, rfl, ?_⟩
  simp [runLoop, processEvent]

/-- C5: for every received candidate, `tc_received_count` and `td_total_count`
each increment by exactly 1 and exactly one of three branches applies, pause
taking precedence over busy: paused increments the pause counter and sends
nothing; busy-and-not-paused increments the inhibited counter, sends nothing
and surfaces a warning; otherwise a decision is built from the current trigger
number and a send is attempted (delivered exactly when the send succeeds). -/
theorem processEvent_candidate_bookkeeping (cfg : MLTConfig) (run : Nat)
    (s : LoopState) (tc : TriggerCandidate) (paused busy sendOk : Bool) :
    (processEvent cfg run s
        (LoopEvent.recv tc paused busy sendOk)).state.tc_received_count
      = s.tc_received_count + 1 ∧
    (processEvent cfg run s
        (LoopEvent.recv tc paused busy sendOk)).state.td_total_count
      = s.td_total_count + 1 ∧
    (paused = true →
      (processEvent cfg run s
          (LoopEvent.recv tc paused busy sendOk)).state.td_paused_count
        = s.td_paused_count + 1 ∧
      (processEvent cfg run s (LoopEvent.recv tc paused busy sendOk)).sent = [] ∧
      (processEvent cfg run s (LoopEvent.recv tc paused busy sendOk)).warned
        = false ∧
      (processEvent cfg run s
          (LoopEvent.recv tc paused busy sendOk)).state.td_inhibited_count
        = s.td_inhibited_count ∧
      (processEvent cfg run s
          (LoopEvent.recv tc paused busy sendOk)).state.td_sent_count
        = s.td_sent_count) ∧
    (paused = false → busy = true →
      (processEvent cfg run s
          (LoopEvent.recv tc paused busy sendOk)).state.td_inhibited_count
        = s.td_inhibited_count + 1 ∧
      (processEvent cfg run s (LoopEvent.recv tc paused busy sendOk)).sent = [] ∧
      (processEvent cfg run s (LoopEvent.recv tc paused busy sendOk)).warned
        = true ∧
      (processEvent cfg run s
          (LoopEvent.recv tc paused busy sendOk)).state.td_paused_count
        = s.td_paused_count ∧
      (processEvent cfg run s
          (LoopEvent.recv tc paused busy sendOk)).state.td_sent_count
        = s.td_sent_count) ∧
    (paused = false → busy = false →
      (processEvent cfg run s (LoopEvent.recv tc paused busy sendOk)).sent
        = (if sendOk then
            [create_decision cfg s.last_trigger_number run tc] else []) ∧
      (processEvent cfg run s (LoopEvent.recv tc paused busy sendOk)).warned
        = false ∧
      (processEvent cfg run s
          (LoopEvent.recv tc paused busy sendOk)).state.td_paused_count
        = s.td_paused_count ∧
      (processEvent cfg run s
          (LoopEvent.recv tc paused busy sendOk)).state.td_inhibited_count
        = s.td_inhibited_count) := by
  cases paused <;> cases busy <;> cases sendOk <;>
    simp [processEvent]

/-- Witness for C5 at a concrete paused-and-busy candidate: pause takes
precedence, the pause counter increments and nothing is sent. -/
theorem processEvent_candidate_bookkeeping_witness :
    (processEvent ⟨[], false⟩ 7 initLoopState
        (LoopEvent.recv ⟨100, 200, 150, TCType.kTiming, 5, 0, 0⟩
          true true false)).state.td_paused_count
      = initLoopState.td_paused_count + 1 :=
  ((processEvent_candidate_bookkeeping ⟨[], false⟩ 7 initLoopState
      ⟨100, 200, 150, TCType.kTiming, 5, 0, 0⟩ true true false).2.2.1 rfl).1

/-- C7: the loop exits exactly on an empty poll with the running flag cleared:
such an iteration delivers nothing further from the remaining trace; an empty
poll while still running continues the loop unchanged; a received candidate
never exits the loop; and a timed-out poll exits precisely when the running
flag is down. -/
theorem loop_exit_characterization (cfg : MLTConfig) (run : Nat) (s : LoopState)
    (tc : TriggerCandidate) (es : List LoopEvent)
    (b paused busy sendOk : Bool) :
    runLoop cfg run s (LoopEvent.timeout false :: es) = (s, []) ∧
    runLoop cfg run s (LoopEvent.timeout true :: es) = runLoop cfg run s es ∧
    (processEvent cfg run s (LoopEvent.recv tc paused busy sendOk)).exited
      = false ∧
    (processEvent cfg run s (LoopEvent.timeout b)).exited = !b := by
  refine ⟨by simp [runLoop, processEvent], by simp [runLoop, processEvent], ?_, ?_⟩
  · cases paused <;> cases busy <;> cases sendOk <;> rfl
  · cases b <;> rfl

/-- One transition preserves well-formedness, moves `entered_at` to the
transition instant and keeps the creation instant, provided time moves
forward. -/
theorem set_state_wf (c : LivetimeCounter) (t : LTState) (now : Nat)
    (hc : c.Wf) (h : c.entered_at ≤ now) :
    (c.set_state t now).Wf ∧ (c.set_state t now).entered_at = now ∧
    (c.set_state t now).start_time = c.start_time := by
  obtain ⟨h1, h2⟩ := hc
  refine ⟨?_, rfl, ?_⟩
  · cases hcur : c.current_state <;>
      simp only [LivetimeCounter.set_state, LivetimeCounter.Wf, hcur] <;>
      exact ⟨by omega, by omega⟩
  · cases hcur : c.current_state <;>
      simp only [LivetimeCounter.set_state, hcur]

/-- A whole run of transitions with nondecreasing instants preserves
well-formedness, keeps the creation instant, and leaves `entered_at` at the
last transition instant. -/
theorem applyTransitions_wf (ts : List (LTState × Nat)) (c : LivetimeCounter)
    (hc : c.Wf)
    (hm : List.Chain' (fun a b => a ≤ b) (c.entered_at :: ts.map Prod.snd)) :
    (c.applyTransitions ts).Wf ∧
    (c.applyTransitions ts).start_time = c.start_time ∧
    (c.applyTransitions ts).entered_at = lastTime c.entered_at ts := by
  induction ts generalizing c with
  | nil => exact ⟨hc, rfl, rfl⟩
  | cons tr ts ih =>
    rw [List.map_cons, List.chain'_cons] at hm
    obtain ⟨hle, hm⟩ := hm
    obtain ⟨hwf, hent, hstart⟩ := set_state_wf c tr.1 tr.2 hc hle
    obtain ⟨ih1, ih2, ih3⟩ := ih (c.set_state tr.1 tr.2) hwf (by rw [hent]; exact hm)
    simp only [LivetimeCounter.applyTransitions, lastTime]
    exact ⟨ih1, by rw [ih2, hstart], by rw [ih3, hent]⟩

/-- For a well-formed counter queried at any instant after `entered_at`, the
three per-state elapsed times sum to the wall-clock span since creation. -/
theorem get_time_sum (c : LivetimeCounter) (now : Nat) (hc : c.Wf)
    (h : c.entered_at ≤ now) :
    c.get_time LTState.kLive now + c.get_time LTState.kPaused now
      + c.get_time LTState.kDead now = now - c.start_time := by
  obtain ⟨h1, h2⟩ := hc
  cases hcur : c.current_state <;>
    simp only [LivetimeCounter.get_time, LivetimeCounter.acc, hcur] <;>
    simp <;> omega

/-- C6: for every transition sequence with nondecreasing instants and every
query instant no earlier than the last transition, the elapsed times reported
for Live, Paused and Dead sum exactly to the wall-clock time since the
counter's creation. -/
theorem livetime_elapsed_total (s0 : LTState) (t0 now : Nat)
    (ts : List (LTState × Nat))
    (hm : List.Chain' (fun a b => a ≤ b) (t0 :: ts.map Prod.snd))
    (hq : lastTime t0 ts ≤ now) :
    ((LivetimeCounter.init s0 t0).applyTransitions ts).get_time LTState.kLive now
      + ((LivetimeCounter.init s0 t0).applyTransitions ts).get_time
          LTState.kPaused now
      + ((LivetimeCounter.init s0 t0).applyTransitions ts).get_time
          LTState.kDead now
      = now - t0 := by
  have hwf0 : (LivetimeCounter.init s0 t0).Wf := by
    constructor <;> simp [LivetimeCounter.init]
  obtain ⟨hwf, hstart, hent⟩ := applyTransitions_wf ts (LivetimeCounter.init s0 t0) hwf0 hm
  have := get_time_sum ((LivetimeCounter.init s0 t0).applyTransitions ts) now hwf
    (by rw [hent]; exact hq)
  rwa [hstart] at this

/-- Witness for C6: created Paused at 0, transitioned to Live at 5 and Dead
at 9, queried at 12: elapsed times are 4, 5 and 3, summing to 12. -/
theorem livetime_elapsed_total_witness :
    ((LivetimeCounter.init LTState.kPaused 0).applyTransitions
        [(LTState.kLive, 5), (LTState.kDead, 9)]).get_time LTState.kLive 12
      + ((LivetimeCounter.init LTState.kPaused 0).applyTransitions
          [(LTState.kLive, 5), (LTState.kDead, 9)]).get_time LTState.kPaused 12
      + ((LivetimeCounter.init LTState.kPaused 0).applyTransitions
          [(LTState.kLive, 5), (LTState.kDead, 9)]).get_time LTState.kDead 12
      = 12 - 0 :=
  livetime_elapsed_total LTState.kPaused 0 12
    [(LTState.kLive, 5), (LTState.kDead, 9)]
    (by simp [List.chain'_cons]) (by decide)

/-- C3: the inhibit callback ignores notifications for a foreign run (busy
flag and gate state untouched); on a matching run it stores the notification's
busy value, busy=true drives the gate to Dead, and busy=false does not bring
the gate back to Live. -/
theorem dfo_busy_callback_spec (s : InhibitView) (inh : TriggerInhibit)
    (now : Nat) :
    (inh.run_number ≠ s.run_number → dfo_busy_callback s inh now = s) ∧
    (inh.run_number = s.run_number →
      (dfo_busy_callback s inh now).dfo_is_busy = inh.busy ∧
      (inh.busy = true →
        (dfo_busy_callback s inh now).livetime.current_state = LTState.kDead) ∧
      (inh.busy = false →
        (dfo_busy_callback s inh now).livetime.current_state ≠ LTState.kLive)) := by
  constructor
  · intro hne
    simp [dfo_busy_callback, hne]
  · intro heq
    have hstate : (dfo_busy_callback s inh now).livetime.current_state
        = LTState.kDead := by
      simp only [dfo_busy_callback, heq, if_true]
      cases s.livetime.current_state <;> rfl
    refine ⟨by simp [dfo_busy_callback, heq], fun _ => hstate, fun _ => ?_⟩
    rw [hstate]
    intro h
    exact LTState.noConfusion h

/-- Witness for C3: a matching busy=true notification in run 7 sets the busy
flag and drives the gate to Dead. -/
theorem dfo_busy_callback_spec_witness :
    (dfo_busy_callback ⟨7, false, LivetimeCounter.init LTState.kLive 0⟩
        ⟨true, 7⟩ 3).livetime.current_state = LTState.kDead ∧
    (dfo_busy_callback ⟨7, false, LivetimeCounter.init LTState.kLive 0⟩
        ⟨true, 7⟩ 3).dfo_is_busy = true :=
  have h := dfo_busy_callback_spec
    ⟨7, false, LivetimeCounter.init LTState.kLive 0⟩ ⟨true, 7⟩ 3
  ⟨(h.2 rfl).2.1 rfl, (h.2 rfl).1⟩

/-- Every element of an insert result was already stored or is the new one. -/
theorem setInsert_mem (buf : List TPSet) (tps y : TPSet)
    (hy : y ∈ (setInsert buf tps).1) : y ∈ buf ∨ y = tps := by
  induction buf with
  | nil =>
    simp only [setInsert, List.mem_singleton] at hy
    exact Or.inr hy
  | cons x xs ih =>
    by_cases h1 : tps.start_time < x.start_time
    · simp only [setInsert, if_pos h1, List.mem_cons] at hy
      rcases hy with hy | hy | hy
      · exact Or.inr hy
      · exact Or.inl (List.mem_cons.mpr (Or.inl hy))
      · exact Or.inl (List.mem_cons.mpr (Or.inr hy))
    · by_cases h2 : x.start_time < tps.start_time
      · simp only [setInsert, if_neg h1, if_pos h2, List.mem_cons] at hy
        rcases hy with hy | hy
        · exact Or.inl (List.mem_cons.mpr (Or.inl hy))
        · rcases ih hy with hmem | heq
          · exact Or.inl (List.mem_cons.mpr (Or.inr hmem))
          · exact Or.inr heq
      · simp only [setInsert, if_neg h1, if_neg h2] at hy
        exact Or.inl hy

/-- Insertion preserves the strict `start_time` ordering of the buffer. -/
theorem setInsert_pairwise (tps : TPSet) (buf : List TPSet)
    (hs : buf.Pairwise (fun a b => a.start_time < b.start_time)) :
    (setInsert buf tps).1.Pairwise (fun a b => a.start_time < b.start_time) := by
  induction buf with
  | nil => simp [setInsert]
  | cons x xs ih =>
    rw [List.pairwise_cons] at hs
    obtain ⟨hx, hxs⟩ := hs
    by_cases h1 : tps.start_time < x.start_time
    · simp only [setInsert, if_pos h1]
      rw [List.pairwise_cons]
      refine ⟨?_, List.pairwise_cons.mpr ⟨hx, hxs⟩⟩
      intro y hy
      rcases List.mem_cons.mp hy with rfl | hy
      · exact h1
      · exact lt_trans h1 (hx y hy)
    · by_cases h2 : x.start_time < tps.start_time
      · simp only [setInsert, if_neg h1, if_pos h2]
        rw [List.pairwise_cons]
        refine ⟨?_, ih hxs⟩
        intro y hy
        rcases setInsert_mem xs tps y hy with hy | rfl
        · exact hx y hy
        · exact h2
      · simp only [setInsert, if_neg h1, if_neg h2]
        exact List.pairwise_cons.mpr ⟨hx, hxs⟩

/-- Inserting a TPSet whose `start_time` is already stored leaves the ordered
buffer unchanged and reports failure. -/
theorem setInsert_dup (buf : List TPSet) (tps : TPSet)
    (hs : buf.Pairwise (fun a b => a.start_time < b.start_time))
    (h : tps.start_time ∈ buf.map TPSet.start_time) :
    setInsert buf tps = (buf, false) := by
  induction buf with
  | nil => simp at h
  | cons x xs ih =>
    rw [List.pairwise_cons] at hs
    obtain ⟨hx, hxs⟩ := hs
    simp only [List.map_cons, List.mem_cons] at h
    rcases h with h | h
    · have h1 : ¬ tps.start_time < x.start_time := by omega
      have h2 : ¬ x.start_time < tps.start_time := by omega
      simp [setInsert, h1, h2]
    · obtain ⟨y, hy, hyeq⟩ := List.mem_map.mp h
      have hlt : x.start_time < tps.start_time := hyeq ▸ hx y hy
      have h1 : ¬ tps.start_time < x.start_time := by omega
      simp [setInsert, h1, hlt, ih hxs h]

/-- A failed insert pinpoints an equal `start_time` already stored. -/
theorem setInsert_false_mem (buf : List TPSet) (tps : TPSet)
    (hf : (setInsert buf tps).2 = false) :
    tps.start_time ∈ buf.map TPSet.start_time := by
  induction buf with
  | nil => simp [setInsert] at hf
  | cons x xs ih =>
    by_cases h1 : tps.start_time < x.start_time
    · simp [setInsert, h1] at hf
    · by_cases h2 : x.start_time < tps.start_time
      · simp only [setInsert, if_neg h1, if_pos h2] at hf
        exact List.mem_cons.mpr (Or.inr (ih hf))
      · have hx : tps.start_time = x.start_time := by omega
        simp [hx]

/-- A strictly `start_time`-ordered buffer has duplicate-free start times. -/
theorem pairwise_lt_map_nodup (l : List TPSet)
    (hl : l.Pairwise (fun a b => a.start_time < b.start_time)) :
    (l.map TPSet.start_time).Nodup :=
  (List.pairwise_map).mpr (hl.imp fun h => Nat.ne_of_lt h)

/-- C8: the window buffer never holds two intervals with equal `start_time`:
adds from a strictly ordered buffer keep it strictly ordered with
duplicate-free start times; adding an interval whose `start_time` is already
stored changes nothing besides capacity eviction and reports failure; and the
returned flag is false exactly on such a rejection. -/
theorem buffer_unique_start_time (cap : Nat) (buf : List TPSet) (tps : TPSet)
    (hbuf : buf.Pairwise (fun a b => a.start_time < b.start_time)) :
    ((BufferManager.add cap buf tps).1).Pairwise
      (fun a b => a.start_time < b.start_time) ∧
    (((BufferManager.add cap buf tps).1).map TPSet.start_time).Nodup ∧
    (tps.start_time ∈ buf.map TPSet.start_time →
      (BufferManager.add cap buf tps).1 = buf.drop (buf.length - cap) ∧
      (BufferManager.add cap buf tps).2 = false) ∧
    ((BufferManager.add cap buf tps).2 = false ↔
      tps.start_time ∈ buf.map TPSet.start_time) := by
  have hins := setInsert_pairwise tps buf hbuf
  have hdrop : ((setInsert buf tps).1.drop
      ((setInsert buf tps).1.length - cap)).Pairwise
      (fun a b => a.start_time < b.start_time) :=
    hins.sublist (List.drop_sublist _ _)
  refine ⟨hdrop, pairwise_lt_map_nodup _ hdrop, ?_, ?_, ?_⟩
  · intro h
    constructor <;> simp [BufferManager.add, setInsert_dup buf tps hbuf h]
  · exact fun hf => setInsert_false_mem buf tps hf
  · intro h
    simp [BufferManager.add, setInsert_dup buf tps hbuf h]

/-- Witness for C8: a one-interval buffer with `start_time` 10 rejects a
second interval with `start_time` 10 and is left unchanged. -/
theorem buffer_unique_start_time_witness :
    (BufferManager.add 10 [⟨10, 20, 0⟩] ⟨10, 99, 1⟩).1 = [⟨10, 20, 0⟩] ∧
    (BufferManager.add 10 [⟨10, 20, 0⟩] ⟨10, 99, 1⟩).2 = false := by
  have h := buffer_unique_start_time 10 [⟨10, 20, 0⟩] ⟨10, 99, 1⟩ (by simp)
  have hm : (⟨10, 99, 1⟩ : TPSet).start_time
      ∈ [(⟨10, 20, 0⟩ : TPSet)].map TPSet.start_time := by simp
  obtain ⟨h1, h2⟩ := h.2.2.1 hm
  exact ⟨by simpa using h1, h2⟩

/-- C10 counterexample: for the convertible signal type 65536 the produced
candidate's detector id is 0, not the original signal type — the source
truncates it through `static_cast<uint16_t>`. -/
theorem timing_roundtrip_counterexample :
    (TimeStampedDataToTriggerCandidate
        (fun s => if s = 65536 then some (1, 1) else none)
        ⟨100, 65536⟩).map TriggerCandidate.detid = some 0 ∧
    (0 : Nat) ≠ 65536 := by
  exact ⟨rfl, by decide⟩

/-- C10 (amended): when the conversion succeeds, the candidate has type Timing
and detector id `signal_type mod 2^16`, so a pass-through decision built from
it has `trigger_type = signal_type mod 256`; in particular the detector id is
the original signal type whenever it fits 16 bits, and the trigger type is the
original signal type whenever it fits 8 bits. -/
theorem timing_roundtrip (offsets : Nat → Option (Nat × Nat))
    (d : TimeStampedData) (c : TriggerCandidate)
    (hc : TimeStampedDataToTriggerCandidate offsets d = some c)
    (cfg : MLTConfig) (hp : cfg.hsi_passthrough = true) (last run : Nat) :
    c.tctype = TCType.kTiming ∧
    c.detid = d.signal_type % 2 ^ 16 ∧
    (create_decision cfg last run c).trigger_type = d.signal_type % 2 ^ 8 ∧
    (d.signal_type < 2 ^ 16 → c.detid = d.signal_type) ∧
    (d.signal_type < 2 ^ 8 →
      (create_decision cfg last run c).trigger_type = d.signal_type) := by
  rcases hoff : offsets d.signal_type with _ | off
  · rw [TimeStampedDataToTriggerCandidate, hoff] at hc
    exact absurd hc (by simp)
  · rw [TimeStampedDataToTriggerCandidate, hoff, Option.some_inj] at hc
    subst hc
    have htype : (create_decision cfg last run
        { time_start := d.time_stamp - off.1
          time_end := d.time_stamp + off.2
          time_candidate := d.time_stamp
          tctype := TCType.kTiming
          detid := d.signal_type % 2 ^ 16
          algorithm := 0
          version := 0 }).trigger_type = d.signal_type % 2 ^ 8 := by
      simp only [create_decision, hp, if_true]
      have hff : (0xff : Nat) = 2 ^ 8 - 1 := by norm_num
      rw [hff, Nat.and_pow_two_sub_one_eq_mod,
        Nat.mod_mod_of_dvd _ (by norm_num : (2 : Nat) ^ 8 ∣ 2 ^ 16)]
    refine ⟨rfl, rfl, htype, fun hlt => Nat.mod_eq_of_lt hlt, fun hlt => ?_⟩
    rw [htype, Nat.mod_eq_of_lt hlt]

/-- Witness for C10: signal type 5 with offsets (2, 3) converts to a Timing
candidate with detector id 5, and the pass-through decision built from it has
trigger type 5. -/
theorem timing_roundtrip_witness :
    (TimeStampedDataToTriggerCandidate
        (fun s => if s = 5 then some (2, 3) else none)
        ⟨100, 5⟩).map TriggerCandidate.detid = some 5 := by
  have h := timing_roundtrip (fun s => if s = 5 then some (2, 3) else none)
    ⟨100, 5⟩ ⟨98, 103, 100, TCType.kTiming, 5, 0, 0⟩ rfl ⟨[], true⟩ rfl 0 7
  have hd := h.2.1
  simp only [TimeStampedDataToTriggerCandidate]
  exact congrArg some hd.symm

end Trigger
